import Mathlib

set_option maxRecDepth 4000

/-!
Verification development for the weather-generation engine of the
cataphracts fantasy weather bot (file src/services/weatherService.js,
current revision).  JavaScript 32-bit integer arithmetic is modelled on
natural-number bit patterns reduced modulo 2^32; floating-point values
produced by the generator are exact dyadic rationals u / 2^32 and are
modelled in the rationals.  Fallible code paths (thrown errors) are
modelled with Option, none standing for a throw.
-/

/-- 2^32, the modulus of all JavaScript 32-bit integer operations. -/
def UINT32 : Nat := 4294967296

/-- ToUint32 of a JavaScript number that is an integer: the bit pattern. -/
def toUInt32 (x : Int) : Nat := (x % (UINT32 : Int)).toNat

/-- Reinterpret a 32-bit pattern as a signed JavaScript int32 value. -/
def toSigned32 (p : Nat) : Int :=
  if p % UINT32 < 2147483648 then ((p % UINT32 : Nat) : Int)
  else ((p % UINT32 : Nat) : Int) - (UINT32 : Int)

/-- State initialisation of seededRandom: `let a = seed ^ 0xdeadbeef`. -/
def seededRandomInit (seed : Nat) : Nat := (seed % UINT32) ^^^ 0xdeadbeef

/-- One call of the closure returned by seededRandom (Mulberry32).
Returns (new state, output numerator u); the JavaScript call returns
u / 2^32.  All steps operate on 32-bit patterns. -/
def mulberryNext (a : Nat) : Nat × Nat :=
  let a1 := (a + 0x7f4a7c15) % UINT32
  let t1 := ((a1 ^^^ (a1 >>> 13)) * (a1 ||| 1)) % UINT32
  let m1 := ((t1 ^^^ (t1 >>> 9)) * (t1 ||| 61)) % UINT32
  let t2 := ((t1 + m1) % UINT32) ^^^ t1
  (a1, t2 ^^^ (t2 >>> 11))

/-- The first output numerator of `seededRandom(seed)`: every generator in
the engine is consumed exactly once, so only the first draw matters. -/
def mulberryFirst (seed : Nat) : Nat := (mulberryNext (seededRandomInit seed)).2

/-- The first draw as the exact rational value in [0,1) returned by `rng()`. -/
def rngFirst (seed : Nat) : ℚ := (mulberryFirst seed : ℚ) / 4294967296

/-- One step of hashRegion: `hash = ((hash << 5) - hash + charCode) & 0xffffffff`,
on bit patterns (shift, subtract and add are congruent mod 2^32). -/
def hashStep (h c : Nat) : Nat := toUInt32 ((((h * 32) % UINT32 : Nat) : Int) - h + c)

/-- hashRegion: rolling hash over the code units of the region id, then
`Math.abs` of the signed 32-bit value.  Region ids are modelled as their
list of character codes. -/
def hashRegion (regionId : List Nat) : Nat :=
  (toSigned32 (regionId.foldl hashStep 0)).natAbs

/-- Proleptic-Gregorian civil date, as exposed by the JavaScript Date UTC
accessors (month is 1-based, matching `getUTCMonth() + 1` in the source). -/
structure CivilDate where
  year : Int
  month : Nat
  day : Nat
deriving DecidableEq, Repr

/-- Modelled from the ECMAScript Date built-ins (not part of src/): convert
a day number (days since 1970-01-01 UTC) to its civil date, Howard Hinnant
style.  Used to model getUTCFullYear / getUTCMonth / getUTCDate. -/
def civilFromDays (z0 : Int) : CivilDate :=
  let z : Int := z0 + 719468
  let era : Int := z.fdiv 146097
  let doe : Nat := (z - era * 146097).toNat
  let yoe : Nat := (doe - doe / 1460 + doe / 36524 - doe / 146096) / 365
  let y : Int := (yoe : Int) + era * 400
  let doy : Nat := doe - (365 * yoe + yoe / 4 - yoe / 100)
  let mp : Nat := (5 * doy + 2) / 153
  let d : Nat := doy - (153 * mp + 2) / 5 + 1
  let m : Nat := if mp < 10 then mp + 3 else mp - 9
  ⟨if m ≤ 2 then y + 1 else y, m, d⟩

/-- A JavaScript Date value: its epoch-milliseconds timestamp. -/
structure JSDate where
  ms : Int
deriving DecidableEq, Repr

/-- getDayNumber: `Math.floor(date.getTime() / 86400000)`. -/
def JSDate.dayNumber (d : JSDate) : Int := d.ms.fdiv 86400000

/-- The UTC civil date of a Date value. -/
def JSDate.civil (d : JSDate) : CivilDate := civilFromDays d.dayNumber

/-- getSeason, as a function of the UTC month (1-based) and day of month,
translated clause by clause from the source. -/
def getSeason (month day : Nat) : String :=
  if month = 3 ∧ day ≥ 20 then "spring"
  else if month = 4 ∨ month = 5 then "spring"
  else if month = 6 ∧ day < 21 then "spring"
  else if month = 6 ∧ day ≥ 21 then "summer"
  else if month = 7 ∨ month = 8 then "summer"
  else if month = 9 ∧ day < 22 then "summer"
  else if month = 9 ∧ day ≥ 22 then "autumn"
  else if month = 10 ∨ month = 11 then "autumn"
  else if month = 12 ∧ day < 21 then "autumn"
  else "winter"

/-- Mechanical impact profile of one weather condition.  The multipliers
are exact in the source (0, 0.25, 0.5, 0.75, 1) and modelled as rationals. -/
structure ImpactProfile where
  roadMult : ℚ
  offRoadMult : ℚ
  canForcedMarch : Bool
  canNightMarch : Bool
  zeroVisibility : Bool
  canFordRivers : Bool
  type : String
  special : String
deriving DecidableEq, Repr

/-- WEATHER_IMPACTS of the current revision of weatherService.js
(the table keyed by the Weather constants).  none models a missing key. -/
def WEATHER_IMPACTS (c : String) : Option ImpactProfile :=
  if c = "Clear Skies" then some ⟨1, 1, true, true, false, true, "None", ""⟩
  else if c = "Light Rain" then some ⟨1, 1, true, true, false, true, "None", ""⟩
  else if c = "Heavy Rain" then some ⟨3/4, 1/2, true, false, false, false, "Bad", ""⟩
  else if c = "Storm" then some ⟨1/2, 1/4, false, false, false, false, "Very Bad", ""⟩
  else if c = "Hot" then some ⟨1, 1, true, true, false, true, "None",
    "Day Marching more than 6 miles requires morale check. Force marching requires morale check."⟩
  else if c = "Heatwave" then some ⟨3/4, 1/2, false, true, false, true, "None",
    "Day Marching gives -1 Morale. Night Marching is fine."⟩
  else if c = "Snow" then some ⟨3/4, 1/2, true, true, false, true, "Bad", ""⟩
  else if c = "Blizzard" then some ⟨1/4, 0, false, false, true, false, "Very Bad",
    "Marching gives -1 Morale."⟩
  else if c = "Fog" then some ⟨1, 1, false, false, true, false, "Very Bad",
    "1-in-6 wrong turn at forked roads. Off-road: 2-in-6 chance of becoming lost."⟩
  else none

/-- WEATHER_IMPACTS of the earlier observed revision of weather.js
(src/unnamed/part_001): Heatwave and Snow set canNightMarch to false there. -/
def WEATHER_IMPACTS_rev1 (c : String) : Option ImpactProfile :=
  if c = "Clear Skies" then some ⟨1, 1, true, true, false, true, "None", ""⟩
  else if c = "Light Rain" then some ⟨1, 1, true, true, false, true, "None", ""⟩
  else if c = "Heavy Rain" then some ⟨3/4, 1/2, true, false, false, false, "Bad", ""⟩
  else if c = "Storm" then some ⟨1/2, 1/4, false, false, false, false, "Very Bad", ""⟩
  else if c = "Hot" then some ⟨1, 1, true, true, false, true, "None",
    "Day Marching more than 6 miles requires morale check. Force marching requires morale check."⟩
  else if c = "Heatwave" then some ⟨3/4, 1/2, false, false, false, true, "None",
    "Day Marching gives -1 Morale. Night Marching is fine."⟩
  else if c = "Snow" then some ⟨3/4, 1/2, true, false, false, true, "Bad", ""⟩
  else if c = "Blizzard" then some ⟨1/4, 0, false, false, true, false, "Very Bad",
    "Marching gives -1 Morale."⟩
  else if c = "Fog" then some ⟨1, 1, false, false, true, false, "Very Bad",
    "1-in-6 wrong turn at forked roads. Off-road: 2-in-6 chance of becoming lost."⟩
  else none

/-- A configured weather entry: a bare condition string, or an object with
a result and an optional weight (`entry.weight ?? 1`). -/
inductive CondEntry where
  | str (s : String)
  | weighted (result : String) (weight : Option ℚ)
deriving DecidableEq, Repr

/-- The result carried by a configured entry. -/
def entryResult : CondEntry → String
  | .str s => s
  | .weighted r _ => r

/-- Normalisation done at the top of rollFromTable. -/
def normEntry : CondEntry → String × ℚ
  | .str s => (s, 1)
  | .weighted r w => (r, w.getD 1)

/-- The subtracting walk of rollFromTable: return the first entry whose
weight exceeds the remaining roll. -/
def walkTable : ℚ → List (String × ℚ) → Option String
  | _, [] => none
  | roll, e :: rest => if roll < e.2 then some e.1 else walkTable (roll - e.2) rest

/-- rollFromTable, with the draw given by its numerator u (the call
`rng()` returns u / 2^32).  The trailing `table[table.length - 1].result`
is a throw on an empty table, modelled by none. -/
def rollFromTable (u : Nat) (entries : List CondEntry) : Option String :=
  let table := entries.map normEntry
  let totalWeight : ℚ := (table.map Prod.snd).sum
  match walkTable ((u : ℚ) / 4294967296 * totalWeight) table with
  | some r => some r
  | none => (table.getLast?).map Prod.fst

/-- Season block of the seasonal weather configuration. -/
structure SeasonData where
  conditions : List CondEntry
deriving DecidableEq, Repr

/-- The seasonal weather configuration: a JavaScript object indexed by
season name; none models an absent key. -/
def SeasonalWeatherConfig : Type := String → Option SeasonData

/-- TRANSITION_PATHS: the static nested table of alternative paths,
translated entry by entry from the source.  none models an absent pair. -/
def TRANSITION_PATHS (fromW toW : String) : Option (List (List String)) :=
  if fromW = "Hot" then
    if toW = "Snow" then some [["Clear Skies", "Light Rain"], ["Light Rain", "Light Rain"]]
    else if toW = "Blizzard" then some [["Clear Skies", "Light Rain", "Snow"], ["Light Rain", "Snow", "Snow"]]
    else if toW = "Fog" then some [["Clear Skies"]]
    else none
  else if fromW = "Heatwave" then
    if toW = "Snow" then some [["Hot", "Clear Skies", "Light Rain"], ["Hot", "Light Rain", "Light Rain"]]
    else if toW = "Blizzard" then some [["Hot", "Clear Skies", "Light Rain", "Snow"], ["Hot", "Light Rain", "Snow", "Snow"]]
    else if toW = "Fog" then some [["Hot", "Clear Skies"], ["Light Rain", "Clear Skies"]]
    else if toW = "Clear Skies" then some [["Hot"]]
    else none
  else if fromW = "Snow" then
    if toW = "Hot" then some [["Clear Skies"], ["Light Rain"]]
    else if toW = "Heatwave" then some [["Clear Skies", "Hot"], ["Light Rain", "Clear Skies", "Hot"]]
    else if toW = "Heavy Rain" then some [["Light Rain"]]
    else if toW = "Storm" then some [["Light Rain", "Heavy Rain"]]
    else none
  else if fromW = "Blizzard" then
    if toW = "Hot" then some [["Snow", "Clear Skies"], ["Fog", "Clear Skies"]]
    else if toW = "Heatwave" then some [["Snow", "Clear Skies", "Hot"], ["Fog", "Clear Skies", "Hot"]]
    else if toW = "Clear Skies" then some [["Snow"], ["Fog"]]
    else if toW = "Heavy Rain" then some [["Light Rain"], ["Snow", "Light Rain"]]
    else if toW = "Storm" then some [["Light Rain", "Heavy Rain"], ["Fog", "Light Rain", "Heavy Rain"]]
    else none
  else if fromW = "Storm" then
    if toW = "Hot" then some [["Clear Skies"], ["Fog", "Clear Skies"]]
    else if toW = "Heatwave" then some [["Clear Skies", "Hot"], ["Fog", "Clear Skies", "Hot"]]
    else if toW = "Snow" then some [["Fog"], ["Heavy Rain", "Light Rain"]]
    else if toW = "Blizzard" then some [["Fog", "Snow"], ["Heavy Rain", "Light Rain", "Snow"]]
    else none
  else if fromW = "Heavy Rain" then
    if toW = "Clear Skies" then some [["Light Rain"]]
    else if toW = "Hot" then some [["Light Rain", "Clear Skies"], ["Fog", "Clear Skies"]]
    else if toW = "Heatwave" then some [["Light Rain", "Clear Skies", "Hot"], ["Fog", "Clear Skies", "Hot"]]
    else if toW = "Snow" then some [["Light Rain"]]
    else if toW = "Blizzard" then some [["Light Rain", "Snow"], ["Fog", "Snow"]]
    else none
  else if fromW = "Fog" then
    if toW = "Hot" then some [["Clear Skies"]]
    else if toW = "Heatwave" then some [["Clear Skies", "Hot"]]
    else if toW = "Heavy Rain" then some [["Light Rain"]]
    else if toW = "Storm" then some [["Light Rain", "Heavy Rain"]]
    else if toW = "Blizzard" then some [["Snow"]]
    else none
  else if fromW = "Light Rain" then
    if toW = "Hot" then some [["Clear Skies"]]
    else if toW = "Heatwave" then some [["Clear Skies", "Hot"]]
    else if toW = "Storm" then some [["Heavy Rain"]]
    else if toW = "Blizzard" then some [["Snow"]]
    else none
  else if fromW = "Clear Skies" then
    if toW = "Heatwave" then some [["Hot"]]
    else if toW = "Blizzard" then some [["Snow"], ["Fog", "Snow"]]
    else if toW = "Heavy Rain" then some [["Light Rain"]]
    else none
  else none

/-- selectTransitionPath: null (none) for a self transition or an absent
pair, otherwise the path at index `Math.floor(rng() * paths.length)`
(= u * length / 2^32, exact; the index is < length whenever u < 2^32). -/
def selectTransitionPath (u : Nat) (fromW toW : String) : Option (List String) :=
  if fromW = toW then none
  else
    match TRANSITION_PATHS fromW toW with
    | none => none
    | some paths =>
      if paths.length = 0 then none
      else some (paths.getD (u * paths.length / UINT32) [])

/-- The epoch length formula used in getEpochInfo and
getEffectiveEpochEndWeather: `2 + Math.floor(epochRng() * 4)` with the
generator seeded by `epochNumber * 7919 + regionOffset`. -/
def epochLengthOf (epochNumber regionOffset : Nat) : Nat :=
  2 + mulberryFirst (epochNumber * 7919 + regionOffset) * 4 / UINT32

/-- The first day of an epoch: cumulative sum of epoch lengths from epoch 0
at day 0, exactly as the summation loop of getEpochInfo computes it. -/
def startDay (regionOffset : Nat) : Nat → Nat
  | 0 => 0
  | n + 1 => startDay regionOffset n + epochLengthOf n regionOffset

/-- The record returned by getEpochInfo. -/
structure EpochInfo where
  epochNumber : Nat
  epochLength : Nat
  dayInEpoch : Nat
  epochStart : Nat
  epochEnd : Nat
deriving DecidableEq, Repr

/-- The forward scan of getEpochInfo.  Fuel bounds the unbounded while
loop; the sufficiency of the fuel supplied by getEpochInfo is proved
below.  none models the thrown epoch calculation error. -/
def scanEpoch (regionOffset : Nat) (targetDay : Int) :
    Nat → Nat → Nat → Option EpochInfo
  | 0, _, _ => none
  | fuel + 1, epochNumber, epochStart =>
    if (epochStart : Int) ≤ targetDay ∧
        targetDay ≤ ((epochStart + epochLengthOf epochNumber regionOffset - 1 : Nat) : Int) then
      some ⟨epochNumber, epochLengthOf epochNumber regionOffset,
            (targetDay - epochStart).toNat, epochStart,
            epochStart + epochLengthOf epochNumber regionOffset - 1⟩
    else if targetDay < (epochStart : Int) then
      none
    else
      scanEpoch regionOffset targetDay fuel (epochNumber + 1)
        (epochStart + epochLengthOf epochNumber regionOffset - 1 + 1)

/-- getEpochInfo: locate the epoch containing a day.  The scan starts at
`max 0 (floor(targetDay / 5) - 10)` with that epoch's start day obtained
by summation from epoch 0, then walks forward. -/
def getEpochInfo (targetDay : Int) (regionId : List Nat) : Option EpochInfo :=
  let regionOffset := hashRegion regionId % 1000
  let estimatedEpochNum : Int := targetDay.fdiv 5
  let startEpochNum : Nat := (max 0 (estimatedEpochNum - 10)).toNat
  scanEpoch regionOffset targetDay (targetDay.toNat + 1) startEpochNum
    (startDay regionOffset startEpochNum)

/-- getEpochBaseWeather: the epoch's rolled base weather, drawn from the
season's conditions with the generator seeded by
`epochNumber * 31337 + hashRegion(regionId)`. -/
def getEpochBaseWeather (epochNumber : Nat) (seasonConfig : SeasonData)
    (regionId : List Nat) : Option String :=
  rollFromTable (mulberryFirst (epochNumber * 31337 + hashRegion regionId))
    seasonConfig.conditions

/-- ANCHOR_EPOCH (roughly Jan 1, 2020). -/
def ANCHOR_EPOCH : Nat := 5765

/-- ANCHOR_WEATHER. -/
def ANCHOR_WEATHER : String := "Clear Skies"

/-- The body of the getEffectiveEpochEndWeather loop for one epoch e:
derive the epoch length, roll the base weather, select the transition
path, and return the condition visible on the last day of the epoch. -/
def effStep (seasonConfig : SeasonData) (regionId : List Nat)
    (effectiveWeather : String) (e : Nat) : Option String :=
  let regionOffset := hashRegion regionId % 1000
  let epochLength := epochLengthOf e regionOffset
  match getEpochBaseWeather e seasonConfig regionId with
  | none => none
  | some baseWeather =>
    match selectTransitionPath (mulberryFirst (e * 54321 + regionOffset))
        effectiveWeather baseWeather with
    | some path =>
      some (if epochLength - 1 < path.length
            then path.getD (epochLength - 1) "" else baseWeather)
    | none => some baseWeather

/-- getEffectiveEpochEndWeather: iterate the loop body from ANCHOR_EPOCH
through epochNumber (no iterations when epochNumber < ANCHOR_EPOCH),
starting from ANCHOR_WEATHER. -/
def getEffectiveEpochEndWeather (epochNumber : Int) (seasonConfig : SeasonData)
    (regionId : List Nat) : Option String :=
  (List.range (epochNumber - ANCHOR_EPOCH + 1).toNat).foldlM
    (fun eff i => effStep seasonConfig regionId eff (ANCHOR_EPOCH + i))
    ANCHOR_WEATHER

/-- COMET_DATE: year 2026, month 6 (June, 1-indexed), day 15. -/
def COMET_DATE : CivilDate := ⟨2026, 6, 15⟩

/-- isCometDate, as a function of the UTC year, month (1-based) and day. -/
def isCometDate (year : Int) (month day : Nat) : Bool :=
  year == COMET_DATE.year && month == COMET_DATE.month && day == COMET_DATE.day

/-- The comet event payload. -/
structure CometEvent where
  name : String
  description : String
  impact : String
deriving DecidableEq, Repr

/-- getCometEventInfo. -/
def getCometEventInfo : CometEvent :=
  ⟨"Gunhilde",
   "The comet Gunhilde traces a bright green line across the sky. Everyone who sees it feels uplifted.",
   "Recover 1 Morale"⟩

/-- Math.round for the percentage rendering of formatImpacts. -/
def jsRound (q : ℚ) : Int := ⌊q + 1/2⌋

/-- formatImpacts on a present profile, push by push from the source. -/
def formatImpacts (p : ImpactProfile) : List String :=
  (if p.roadMult < 1 then
    ["Road travel at " ++ toString (jsRound (p.roadMult * 100)) ++ "% speed"] else []) ++
  (if p.offRoadMult < 1 then
    (if p.offRoadMult = 0 then ["Off-road travel impossible"]
     else ["Off-road travel at " ++ toString (jsRound (p.offRoadMult * 100)) ++ "% speed"]) else []) ++
  (if p.canForcedMarch then [] else ["Forced marching not possible"]) ++
  (if p.canNightMarch then [] else ["Night marching not possible"]) ++
  (if p.zeroVisibility then ["Zero visibility"] else []) ++
  (if p.canFordRivers then [] else ["Cannot ford rivers"]) ++
  (if p.type = "Bad" then ["-1 to battle rolls", "Scouting range reduced by 1 hex"]
   else if p.type = "Very Bad" then ["-1 to battle rolls", "Scouting range reduced by 2 hexes"]
   else []) ++
  (if p.special = "" then [] else [p.special])

/-- formatImpacts applied to `WEATHER_IMPACTS[condition] || {}`: on the
empty object the undefined flags make exactly the three negative flag
checks fire (undefined is falsy and not less than 1). -/
def formatImpactsOpt : Option ImpactProfile → List String
  | some p => formatImpacts p
  | none => ["Forced marching not possible", "Night marching not possible",
             "Cannot ford rivers"]

/-- English month names used by toLocaleDateString en-US. -/
def monthName (m : Nat) : String :=
  ["January", "February", "March", "April", "May", "June", "July",
   "August", "September", "October", "November", "December"].getD (m - 1) ""

/-- The formatted date string `{ month: "long", day: "numeric" }` in UTC. -/
def formatDate (month day : Nat) : String :=
  monthName month ++ " " ++ toString day

/-- The formatted weekday `{ weekday: "long" }` in UTC: day 0
(1970-01-01) was a Thursday. -/
def dayOfWeekName (dayNumber : Int) : String :=
  ["Sunday", "Monday", "Tuesday", "Wednesday", "Thursday", "Friday",
   "Saturday"].getD ((dayNumber + 4) % 7).toNat ""

/-- The record returned by getWeatherForDate.  impactData none models the
empty object fallback `WEATHER_IMPACTS[condition] || {}`. -/
structure WeatherResult where
  date : String
  dayOfWeek : String
  season : String
  condition : String
  impacts : List String
  impactData : Option ImpactProfile
  hasComet : Bool
  cometEvent : Option CometEvent
deriving DecidableEq, Repr

/-- The body of getWeatherForDate as a function of the day number: the
source reads the date only through its UTC accessors, all of which are
functions of the day number. -/
def getWeatherByDay (dayNumber : Int) (seasonalWeatherConfig : SeasonalWeatherConfig)
    (regionId : List Nat) : Option WeatherResult :=
  let civ := civilFromDays dayNumber
  let season := getSeason civ.month civ.day
  match seasonalWeatherConfig season with
  | none => none
  | some seasonData =>
    if isCometDate civ.year civ.month civ.day then
      some ⟨formatDate civ.month civ.day, dayOfWeekName dayNumber, season,
            "Clear Skies", [], WEATHER_IMPACTS "Clear Skies", true,
            some getCometEventInfo⟩
    else
      match getEpochInfo dayNumber regionId with
      | none => none
      | some info =>
        match getEpochBaseWeather info.epochNumber seasonData regionId with
        | none => none
        | some currentEpochWeather =>
          match getEffectiveEpochEndWeather ((info.epochNumber : Int) - 1)
              seasonData regionId with
          | none => none
          | some prevEffectiveWeather =>
            let regionOffset := hashRegion regionId % 1000
            let path := selectTransitionPath
              (mulberryFirst (info.epochNumber * 54321 + regionOffset))
              prevEffectiveWeather currentEpochWeather
            let condition :=
              match path with
              | some p => if info.dayInEpoch < p.length
                          then p.getD info.dayInEpoch "" else currentEpochWeather
              | none => currentEpochWeather
            some ⟨formatDate civ.month civ.day, dayOfWeekName dayNumber, season,
                  condition, formatImpactsOpt (WEATHER_IMPACTS condition),
                  WEATHER_IMPACTS condition, false, none⟩

/-- getWeatherForDate. -/
def getWeatherForDate (date : JSDate) (seasonalWeatherConfig : SeasonalWeatherConfig)
    (regionId : List Nat) : Option WeatherResult :=
  getWeatherByDay date.dayNumber seasonalWeatherConfig regionId

/-- Defined following the words of the spec (section 4.6 step 3) for
comparison with the source function: one step of the continuity walk,
re-deriving the epoch length, base weather and transition path of epoch e
from their seeds and taking the condition visible on the last day of the
epoch (path[length-1] when length-1 < path.length, else the base). -/
def specStep (seasonConfig : SeasonData) (regionId : List Nat)
    (eff : String) (e : Nat) : Option String :=
  let ro := hashRegion regionId % 1000
  let len := 2 + mulberryFirst (e * 7919 + ro) * 4 / UINT32
  match rollFromTable (mulberryFirst (e * 31337 + hashRegion regionId))
      seasonConfig.conditions with
  | none => none
  | some base =>
    match selectTransitionPath (mulberryFirst (e * 54321 + ro)) eff base with
    | some p => some (if len - 1 < p.length then p.getD (len - 1) "" else base)
    | none => some base

/-- Defined following the words of the spec: the fold that starts at the
anchor epoch with Clear Skies and applies the step for each epoch from the
anchor through the target in order, top-down recursion on the number of
epochs processed. -/
def specWalkAux (seasonConfig : SeasonData) (regionId : List Nat) : Nat → Option String
  | 0 => some "Clear Skies"
  | k + 1 =>
    match specWalkAux seasonConfig regionId k with
    | none => none
    | some eff => specStep seasonConfig regionId eff (ANCHOR_EPOCH + k)

/-- Defined following the words of the spec: the effective weather at the
end of the target epoch, the anchor condition when the target precedes the
anchor. -/
def specEffectiveEndWeather (target : Int) (seasonConfig : SeasonData)
    (regionId : List Nat) : Option String :=
  specWalkAux seasonConfig regionId (target - ANCHOR_EPOCH + 1).toNat

/-- Defined following the words of the spec (section 4.6 step 5): the
visible condition for a day, from the previous effective weather, the
rolled base, the path draw numerator and the day offset in the epoch. -/
def specVisibleCondition (prev cur : String) (u dayInEpoch : Nat) : String :=
  match selectTransitionPath u prev cur with
  | some p => if dayInEpoch < p.length then p.getD dayInEpoch "" else cur
  | none => cur

/-- A one-condition season block used by the concrete witnesses. -/
def demoSeason : SeasonData := ⟨[CondEntry.str "Clear Skies"]⟩

/-- A configuration with the demo season for winter only. -/
def demoCfgWinter : SeasonalWeatherConfig :=
  fun s => if s = "winter" then some demoSeason else none

/-- A configuration with the demo season for spring only. -/
def demoCfgSpring : SeasonalWeatherConfig :=
  fun s => if s = "spring" then some demoSeason else none

/-- The character codes of the default region id "default". -/
def defaultRegion : List Nat := [100, 101, 102, 97, 117, 108, 116]

/-! Helper lemmas shared by the claim theorems. -/

lemma uint32_eq : UINT32 = 2 ^ 32 := by norm_num [UINT32]

lemma xor_lt_uint32 {a b : Nat} (ha : a < UINT32) (hb : b < UINT32) :
    a ^^^ b < UINT32 := by
  rw [uint32_eq] at *
  exact Nat.xor_lt_two_pow ha hb

lemma mulberryFirst_lt (s : Nat) : mulberryFirst s < UINT32 := by
  unfold mulberryFirst mulberryNext
  have hU : 0 < UINT32 := by norm_num [UINT32]
  set a1 := (seededRandomInit s + 0x7f4a7c15) % UINT32 with ha1
  set t1 := ((a1 ^^^ (a1 >>> 13)) * (a1 ||| 1)) % UINT32 with ht1
  set m1 := ((t1 ^^^ (t1 >>> 9)) * (t1 ||| 61)) % UINT32 with hm1
  have h1 : t1 < UINT32 := Nat.mod_lt _ hU
  have h2 : (t1 + m1) % UINT32 < UINT32 := Nat.mod_lt _ hU
  have h3 : ((t1 + m1) % UINT32) ^^^ t1 < UINT32 := xor_lt_uint32 h2 h1
  have h4 : (((t1 + m1) % UINT32) ^^^ t1) >>> 11 < UINT32 := by
    rw [Nat.shiftRight_eq_div_pow]
    exact Nat.lt_of_le_of_lt (Nat.div_le_self _ _) h3
  exact xor_lt_uint32 h3 h4

lemma epochLengthOf_lower (e ro : Nat) : 2 ≤ epochLengthOf e ro :=
  Nat.le_add_right 2 _

lemma epochLengthOf_upper (e ro : Nat) : epochLengthOf e ro ≤ 5 := by
  have h := mulberryFirst_lt (e * 7919 + ro)
  unfold epochLengthOf
  have : mulberryFirst (e * 7919 + ro) * 4 / UINT32 ≤ 3 := by
    have h4 : mulberryFirst (e * 7919 + ro) * 4 < UINT32 * 4 := by omega
    have := Nat.div_lt_of_lt_mul h4
    omega
  omega

lemma startDay_succ (ro n : Nat) :
    startDay ro (n + 1) = startDay ro n + epochLengthOf n ro := rfl

lemma startDay_le_five_mul (ro n : Nat) : startDay ro n ≤ 5 * n := by
  induction n with
  | zero => simp [startDay]
  | succ k ih =>
    have := epochLengthOf_upper k ro
    rw [startDay_succ]
    omega

lemma two_mul_le_startDay (ro n : Nat) : 2 * n ≤ startDay ro n := by
  induction n with
  | zero => simp [startDay]
  | succ k ih =>
    have := epochLengthOf_lower k ro
    rw [startDay_succ]
    omega

lemma startDay_mono (ro : Nat) {i j : Nat} (h : i ≤ j) :
    startDay ro i ≤ startDay ro j := by
  induction j with
  | zero =>
    have : i = 0 := by omega
    subst this
    exact Nat.le_refl _
  | succ k ih =>
    rcases Nat.lt_or_ge i (k + 1) with hlt | hge
    · have := ih (by omega)
      have := epochLengthOf_lower k ro
      rw [startDay_succ]
      omega
    · have : i = k + 1 := by omega
      subst this
      exact Nat.le_refl _

/-- Uniqueness of the containing epoch. -/
lemma containing_epoch_unique (ro : Nat) {i j : Nat} {t : Int}
    (hi1 : (startDay ro i : Int) ≤ t) (hi2 : t < startDay ro i + epochLengthOf i ro)
    (hj1 : (startDay ro j : Int) ≤ t) (hj2 : t < startDay ro j + epochLengthOf j ro) :
    i = j := by
  by_contra hne
  rcases Nat.lt_or_ge i j with hlt | hge
  · have h1 : startDay ro (i + 1) ≤ startDay ro j := startDay_mono ro hlt
    have h2 := startDay_succ ro i
    omega
  · have hlt : j < i := by omega
    have h1 : startDay ro (j + 1) ≤ startDay ro i := startDay_mono ro hlt
    have h2 := startDay_succ ro j
    omega

/-- Correctness of the forward scan: started at an epoch whose start day
does not exceed the target, with enough fuel, it returns the unique
containing epoch. -/
lemma scanEpoch_finds (ro : Nat) (t : Int) :
    ∀ (fuel s : Nat), (startDay ro s : Int) ≤ t →
    t < (startDay ro s : Int) + 2 * fuel →
    ∃ e, s ≤ e ∧ (startDay ro e : Int) ≤ t ∧
      t < (startDay ro e : Int) + epochLengthOf e ro ∧
      scanEpoch ro t fuel s (startDay ro s) =
        some ⟨e, epochLengthOf e ro, (t - startDay ro e).toNat, startDay ro e,
              startDay ro e + epochLengthOf e ro - 1⟩ := by
  intro fuel
  induction fuel with
  | zero =>
    intro s hs hub
    omega
  | succ f ih =>
    intro s hs hub
    have hlen := epochLengthOf_lower s ro
    rcases lt_or_ge t ((startDay ro s : Int) + epochLengthOf s ro) with hin | hout
    · refine ⟨s, Nat.le_refl s, hs, hin, ?_⟩
      rw [scanEpoch]
      rw [if_pos]
      constructor
      · exact hs
      · push_cast [Nat.cast_sub (by omega : 1 ≤ startDay ro s + epochLengthOf s ro)]
        omega
    · have hnext : startDay ro s + epochLengthOf s ro - 1 + 1 = startDay ro (s + 1) := by
        rw [startDay_succ]
        omega
      have hs1 : (startDay ro (s + 1) : Int) ≤ t := by
        rw [startDay_succ]
        push_cast
        omega
      have hub1 : t < (startDay ro (s + 1) : Int) + 2 * f := by
        rw [startDay_succ]
        push_cast
        omega
      obtain ⟨e, he1, he2, he3, he4⟩ := ih (s + 1) hs1 hub1
      refine ⟨e, by omega, he2, he3, ?_⟩
      rw [scanEpoch]
      rw [if_neg, if_neg]
      · rw [hnext]
        exact he4
      · omega
      · push_cast [Nat.cast_sub (by omega : 1 ≤ startDay ro s + epochLengthOf s ro)]
        intro h
        omega

lemma fdiv_nonneg_eq (a b : Int) (ha : 0 ≤ a) (hb : 0 ≤ b) : a.fdiv b = a / b :=
  (Int.fdiv_eq_tdiv ha hb).trans (Int.tdiv_eq_ediv ha hb)

/-- getEpochInfo returns the containing epoch, for any day inside it. -/
lemma getEpochInfo_at (regionId : List Nat) (i : Nat) (t : Int)
    (h1 : (startDay (hashRegion regionId % 1000) i : Int) ≤ t)
    (h2 : t < (startDay (hashRegion regionId % 1000) i : Int) +
      epochLengthOf i (hashRegion regionId % 1000)) :
    getEpochInfo t regionId =
      some ⟨i, epochLengthOf i (hashRegion regionId % 1000),
            (t - startDay (hashRegion regionId % 1000) i).toNat,
            startDay (hashRegion regionId % 1000) i,
            startDay (hashRegion regionId % 1000) i +
              epochLengthOf i (hashRegion regionId % 1000) - 1⟩ := by
  set ro := hashRegion regionId % 1000 with hro
  have ht0 : 0 ≤ t := le_trans (by positivity) h1
  unfold getEpochInfo
  rw [← hro]
  set s0 := (max 0 (t.fdiv 5 - 10)).toNat with hs0
  have hfd : t.fdiv 5 = t / 5 := fdiv_nonneg_eq t 5 ht0 (by norm_num)
  have hstart : (startDay ro s0 : Int) ≤ t := by
    rcases Int.le_or_lt (t.fdiv 5 - 10) 0 with hle | hgt
    · have : s0 = 0 := by rw [hs0]; omega
      rw [this]
      simpa [startDay] using ht0
    · have hs0v : (s0 : Int) = t.fdiv 5 - 10 := by rw [hs0]; omega
      have h5 : startDay ro s0 ≤ 5 * s0 := startDay_le_five_mul ro s0
      have : 5 * ((s0 : Int)) ≤ t := by
        rw [hs0v, hfd]
        omega
      push_cast at h5 ⊢
      omega
  have hub : t < (startDay ro s0 : Int) + 2 * (t.toNat + 1) := by
    have : (startDay ro s0 : Int) ≥ 0 := by positivity
    omega
  obtain ⟨e, he1, he2, he3, he4⟩ := scanEpoch_finds ro t (t.toNat + 1) s0 hstart hub
  have : e = i := containing_epoch_unique ro he2 (by omega) h1 (by omega)
  rw [he4, this]

/-- Every nonnegative day lies in some epoch. -/
lemma exists_containing_epoch (ro : Nat) (t : Int) (ht : 0 ≤ t) :
    ∃ i, (startDay ro i : Int) ≤ t ∧
      t < (startDay ro i : Int) + epochLengthOf i ro := by
  have hP : ∃ n, t < (startDay ro (n + 1) : Int) := by
    refine ⟨t.toNat, ?_⟩
    have := two_mul_le_startDay ro (t.toNat + 1)
    omega
  classical
  let n0 := Nat.find hP
  have hfound : t < (startDay ro (n0 + 1) : Int) := Nat.find_spec hP
  rcases Nat.eq_zero_or_pos n0 with h0 | hpos
  · refine ⟨0, by simpa [startDay] using ht, ?_⟩
    have := startDay_succ ro 0
    rw [h0] at hfound
    push_cast at hfound ⊢
    simp [startDay] at hfound ⊢
    omega
  · have hprev : ¬ t < (startDay ro (n0 - 1 + 1) : Int) :=
      Nat.find_min hP (by omega)
    have heq : n0 - 1 + 1 = n0 := by omega
    rw [heq] at hprev
    refine ⟨n0, by omega, ?_⟩
    have := startDay_succ ro n0
    push_cast at hfound ⊢
    omega

/-- The loop body of the source function and the spec-worded step agree. -/
lemma effStep_eq_specStep (sd : SeasonData) (r : List Nat) (eff : String) (e : Nat) :
    effStep sd r eff e = specStep sd r eff e := rfl

/-- The anchored foldl of the source equals the spec-worded top-down walk. -/
lemma foldlM_range_eq_specWalk (sd : SeasonData) (r : List Nat) (n : Nat) :
    (List.range n).foldlM (fun eff i => effStep sd r eff (ANCHOR_EPOCH + i))
      ANCHOR_WEATHER = specWalkAux sd r n := by
  induction n with
  | zero => rfl
  | succ k ih =>
    rw [List.range_succ, List.foldlM_append, ih]
    rw [specWalkAux]
    cases specWalkAux sd r k with
    | none => rfl
    | some eff =>
      simp [List.foldlM, effStep_eq_specStep]

/-- A successful walk returns a result drawn from the table. -/
lemma walkTable_mem : ∀ (roll : ℚ) (table : List (String × ℚ)) (r : String),
    walkTable roll table = some r → r ∈ table.map Prod.fst := by
  intro roll table
  induction table generalizing roll with
  | nil => intro r h; simp [walkTable] at h
  | cons e rest ih =>
    intro r h
    rw [walkTable] at h
    by_cases hc : roll < e.2
    · rw [if_pos hc] at h
      simp at h
      simp [h]
    · rw [if_neg hc] at h
      have := ih (roll - e.2) r h
      simp at this ⊢
      tauto

lemma fst_normEntry (e : CondEntry) : (normEntry e).1 = entryResult e := by
  cases e <;> rfl

/-- The selection core of rollFromTable on a nonempty normalised table:
either the walk lands on an entry, or the final fallback takes the last. -/
lemma rollCore_mem (roll : ℚ) (table : List (String × ℚ)) (hne : table ≠ []) :
    ∃ pr, (match walkTable roll table with
           | some r => some r
           | none => table.getLast?.map Prod.fst) = some pr ∧
      pr ∈ table.map Prod.fst := by
  cases hwalk : walkTable roll table with
  | some r => exact ⟨r, rfl, walkTable_mem _ _ _ hwalk⟩
  | none =>
    have hlast := List.getLast?_eq_getLast_of_ne_nil hne
    refine ⟨(table.getLast hne).1, by rw [hlast]; rfl, ?_⟩
    exact List.mem_map_of_mem Prod.fst (List.getLast_mem hne)

/-- On a nonempty entry list the roll always lands on some entry result. -/
lemma rollFromTable_mem (u : Nat) (entries : List CondEntry) (hne : entries ≠ []) :
    ∃ r, rollFromTable u entries = some r ∧ r ∈ entries.map entryResult := by
  have htne : entries.map normEntry ≠ [] := by simpa using hne
  obtain ⟨pr, hpr, hmem⟩ := rollCore_mem
    ((u : ℚ) / 4294967296 * ((entries.map normEntry).map Prod.snd).sum)
    (entries.map normEntry) htne
  refine ⟨pr, ?_, ?_⟩
  · unfold rollFromTable
    exact hpr
  · rw [List.map_map] at hmem
    have hcomp : List.map (Prod.fst ∘ normEntry) entries = List.map entryResult entries :=
      List.map_congr_left (fun e _ => fst_normEntry e)
    rwa [hcomp] at hmem

/-- Claim C6 counterexample: on the empty entry list rollFromTable does
not return an entry result; the fallback read `table[table.length - 1]`
faults (modelled none), so the claim fails at the empty list. -/
theorem C6_empty_table_counterexample : rollFromTable 0 [] = none := rfl

/-- Claim C6 (amended): for every NON-EMPTY entry list (including lists
whose weights are all zero) and every draw, rollFromTable returns the
result of some entry of the list - via the subtracting walk or the
last-entry defensive fallback. -/
theorem C6_roll_nonempty_total (u : Nat) (entries : List CondEntry)
    (hne : entries ≠ []) :
    ∃ r, rollFromTable u entries = some r ∧ r ∈ entries.map entryResult :=
  rollFromTable_mem u entries hne

/-- Witness for C6_roll_nonempty_total at a concrete zero-weight list. -/
theorem C6_roll_nonempty_total_witness :
    ∃ r, rollFromTable 0 [CondEntry.weighted "Clear Skies" (some 0)] = some r ∧
      r ∈ [CondEntry.weighted "Clear Skies" (some 0)].map entryResult :=
  C6_roll_nonempty_total 0 [CondEntry.weighted "Clear Skies" (some 0)] (by decide)

/-- Claim C7 counterexample: the day before the epoch-zero reference
(1969-12-31, day number -1) is a calendar date on which getEpochInfo
takes its error branch, so the epochs do not cover the full integer
timeline. -/
theorem C7_negative_day_counterexample :
    getEpochInfo (-1) defaultRegion = none ∧
    civilFromDays (-1) = ⟨1969, 12, 31⟩ := by
  constructor
  · decide
  · decide

/-- Claim C7 (amended): for every date with a nonnegative day number,
getEpochInfo terminates by returning a containing epoch, and the error
branch is unreachable; for negative day numbers it throws. -/
theorem C7_scan_total_nonneg (t : Int) (ht : 0 ≤ t) (regionId : List Nat) :
    ∃ info, getEpochInfo t regionId = some info := by
  obtain ⟨i, h1, h2⟩ := exists_containing_epoch (hashRegion regionId % 1000) t ht
  exact ⟨_, getEpochInfo_at regionId i t h1 h2⟩

/-- Witness for C7_scan_total_nonneg at day 0 in the default region. -/
theorem C7_scan_total_nonneg_witness :
    ∃ info, getEpochInfo 0 defaultRegion = some info :=
  C7_scan_total_nonneg 0 (by decide) defaultRegion

lemma floor_mul_four_div (u : Nat) :
    ⌊(u : ℚ) / 4294967296 * 4⌋₊ = u * 4 / UINT32 := by
  have h : (u : ℚ) / 4294967296 * 4 = ((u * 4 : ℕ) : ℚ) / ((4294967296 : ℕ) : ℚ) := by
    push_cast
    ring
  rw [h, Nat.floor_div_nat, Nat.floor_natCast]
  rfl

/-- Claim C2: for every region the epochs are a contiguous non-overlapping
partition (epoch i start plus length is epoch i+1 start), each length is
2 + floor(rng(epochNumber*7919 + regionOffset).next() * 4) and lies in
[2,5], and getEpochInfo maps every day inside epoch i to epoch number i
with dayInEpoch the offset from the epoch start. -/
theorem C2_epoch_partition (regionId : List Nat) :
    (∀ i : Nat, startDay (hashRegion regionId % 1000) i +
        epochLengthOf i (hashRegion regionId % 1000) =
        startDay (hashRegion regionId % 1000) (i + 1)) ∧
    (∀ e : Nat,
      epochLengthOf e (hashRegion regionId % 1000) =
        2 + ⌊rngFirst (e * 7919 + hashRegion regionId % 1000) * 4⌋₊ ∧
      2 ≤ epochLengthOf e (hashRegion regionId % 1000) ∧
      epochLengthOf e (hashRegion regionId % 1000) ≤ 5) ∧
    (∀ (i : Nat) (t : Int),
      (startDay (hashRegion regionId % 1000) i : Int) ≤ t →
      t < (startDay (hashRegion regionId % 1000) i : Int) +
        epochLengthOf i (hashRegion regionId % 1000) →
      getEpochInfo t regionId =
        some ⟨i, epochLengthOf i (hashRegion regionId % 1000),
              (t - startDay (hashRegion regionId % 1000) i).toNat,
              startDay (hashRegion regionId % 1000) i,
              startDay (hashRegion regionId % 1000) i +
                epochLengthOf i (hashRegion regionId % 1000) - 1⟩) := by
  refine ⟨fun i => (startDay_succ _ i).symm,
          fun e => ⟨?_, epochLengthOf_lower _ _, epochLengthOf_upper _ _⟩,
          getEpochInfo_at regionId⟩
  unfold rngFirst epochLengthOf
  rw [floor_mul_four_div]

/-- Witness for C2_epoch_partition: day 0 lies in epoch 0 of the region
with the empty id. -/
theorem C2_epoch_partition_witness :
    getEpochInfo 0 [] =
      some ⟨0, epochLengthOf 0 (hashRegion [] % 1000),
            ((0 : Int) - startDay (hashRegion [] % 1000) 0).toNat,
            startDay (hashRegion [] % 1000) 0,
            startDay (hashRegion [] % 1000) 0 +
              epochLengthOf 0 (hashRegion [] % 1000) - 1⟩ :=
  (C2_epoch_partition []).2.2 0 0 (by decide) (by decide)

set_option maxHeartbeats 1000000 in
set_option synthInstance.maxSize 2000 in
set_option synthInstance.maxHeartbeats 1000000 in
/-- Claim C8: getSeason, a pure year-independent function of (month, day),
returns spring exactly on Mar 20 - Jun 20, summer exactly on Jun 21 -
Sep 21, autumn exactly on Sep 22 - Dec 20, and winter on every other
valid (month, day). -/
theorem C8_season_boundaries :
    ∀ m : Nat, m < 13 → ∀ d : Nat, d < 32 →
      ((getSeason m d = "spring") ↔
        ((m = 3 ∧ 20 ≤ d) ∨ m = 4 ∨ m = 5 ∨ (m = 6 ∧ d ≤ 20))) ∧
      ((getSeason m d = "summer") ↔
        ((m = 6 ∧ 21 ≤ d) ∨ m = 7 ∨ m = 8 ∨ (m = 9 ∧ d ≤ 21))) ∧
      ((getSeason m d = "autumn") ↔
        ((m = 9 ∧ 22 ≤ d) ∨ m = 10 ∨ m = 11 ∨ (m = 12 ∧ d ≤ 20))) ∧
      ((getSeason m d = "winter") ↔
        ¬(((m = 3 ∧ 20 ≤ d) ∨ m = 4 ∨ m = 5 ∨ (m = 6 ∧ d ≤ 20)) ∨
          ((m = 6 ∧ 21 ≤ d) ∨ m = 7 ∨ m = 8 ∨ (m = 9 ∧ d ≤ 21)) ∨
          ((m = 9 ∧ 22 ≤ d) ∨ m = 10 ∨ m = 11 ∨ (m = 12 ∧ d ≤ 20)))) := by
  decide

/-- Witness for C8_season_boundaries at March 20. -/
theorem C8_season_boundaries_witness : getSeason 3 20 = "spring" :=
  ((C8_season_boundaries 3 (by decide) 20 (by decide)).1).mpr
    (Or.inl ⟨rfl, by decide⟩)

/-- Claim C9 counterexample: the two table revisions also disagree at the
Snow key (earlier canNightMarch false, later true), refuting that the
Heatwave key is the only disagreement. -/
theorem C9_snow_counterexample :
    WEATHER_IMPACTS_rev1 "Snow" ≠ WEATHER_IMPACTS "Snow" ∧
    (WEATHER_IMPACTS_rev1 "Snow").map ImpactProfile.canNightMarch = some false ∧
    (WEATHER_IMPACTS "Snow").map ImpactProfile.canNightMarch = some true := by
  refine ⟨?_, rfl, rfl⟩
  intro h
  have hmap : (WEATHER_IMPACTS_rev1 "Snow").map ImpactProfile.canNightMarch =
      (WEATHER_IMPACTS "Snow").map ImpactProfile.canNightMarch := by rw [h]
  rw [show (WEATHER_IMPACTS_rev1 "Snow").map ImpactProfile.canNightMarch =
      some false from rfl] at hmap
  rw [show (WEATHER_IMPACTS "Snow").map ImpactProfile.canNightMarch =
      some true from rfl] at hmap
  simp at hmap

/-- Claim C9 (amended): the two revisions disagree exactly at the
Heatwave and Snow keys, in each case only in the canNightMarch field
(earlier false, later true); every other key is identical, and at the two
differing keys every other field is identical. -/
theorem C9_impacts_revisions (c : String) :
    (c ≠ "Heatwave" → c ≠ "Snow" → WEATHER_IMPACTS_rev1 c = WEATHER_IMPACTS c) ∧
    ((WEATHER_IMPACTS_rev1 "Heatwave").map ImpactProfile.canNightMarch = some false ∧
     (WEATHER_IMPACTS "Heatwave").map ImpactProfile.canNightMarch = some true ∧
     (WEATHER_IMPACTS_rev1 "Snow").map ImpactProfile.canNightMarch = some false ∧
     (WEATHER_IMPACTS "Snow").map ImpactProfile.canNightMarch = some true) ∧
    ((WEATHER_IMPACTS_rev1 "Heatwave").map
        (fun p => (p.roadMult, p.offRoadMult, p.canForcedMarch, p.zeroVisibility,
                   p.canFordRivers, p.type, p.special)) =
      (WEATHER_IMPACTS "Heatwave").map
        (fun p => (p.roadMult, p.offRoadMult, p.canForcedMarch, p.zeroVisibility,
                   p.canFordRivers, p.type, p.special)) ∧
     (WEATHER_IMPACTS_rev1 "Snow").map
        (fun p => (p.roadMult, p.offRoadMult, p.canForcedMarch, p.zeroVisibility,
                   p.canFordRivers, p.type, p.special)) =
      (WEATHER_IMPACTS "Snow").map
        (fun p => (p.roadMult, p.offRoadMult, p.canForcedMarch, p.zeroVisibility,
                   p.canFordRivers, p.type, p.special))) := by
  refine ⟨?_, ⟨rfl, rfl, rfl, rfl⟩, ⟨rfl, rfl⟩⟩
  intro h1 h2
  unfold WEATHER_IMPACTS_rev1 WEATHER_IMPACTS
  split_ifs <;> rfl

/-- Witness for C9_impacts_revisions: at the Fog key the revisions agree. -/
theorem C9_impacts_revisions_witness :
    WEATHER_IMPACTS_rev1 "Fog" = WEATHER_IMPACTS "Fog" :=
  (C9_impacts_revisions "Fog").1 (by decide) (by decide)

/-- Claim C10: for every epoch number below the anchor epoch 5765, the
continuity walk performs zero iterations and
getEffectiveEpochEndWeather returns Clear Skies for every configuration
and region. -/
theorem C10_pre_anchor_effective_weather (epochNumber : Int)
    (h : epochNumber < (ANCHOR_EPOCH : Int)) (seasonConfig : SeasonData)
    (regionId : List Nat) :
    getEffectiveEpochEndWeather epochNumber seasonConfig regionId =
      some "Clear Skies" := by
  unfold getEffectiveEpochEndWeather
  have hn : (epochNumber - (ANCHOR_EPOCH : Int) + 1).toNat = 0 := by
    omega
  rw [hn]
  rfl

/-- Witness for C10_pre_anchor_effective_weather at epoch 0. -/
theorem C10_pre_anchor_effective_weather_witness :
    getEffectiveEpochEndWeather 0 demoSeason [] = some "Clear Skies" :=
  C10_pre_anchor_effective_weather 0 (by decide) demoSeason []

/-- Claim C1: for a fixed (date, regionId, seasonalWeatherConfig) triple
any two invocations of getWeatherForDate agree on every field of the
returned record, and the result depends on the date only through its day
number - there is no hidden state and no wall-clock dependency beyond the
date argument. -/
theorem C1_determinism :
    (∀ (date : JSDate) (cfg : SeasonalWeatherConfig) (regionId : List Nat)
        (res1 res2 : WeatherResult),
      getWeatherForDate date cfg regionId = some res1 →
      getWeatherForDate date cfg regionId = some res2 →
      res1.date = res2.date ∧ res1.dayOfWeek = res2.dayOfWeek ∧
      res1.season = res2.season ∧ res1.condition = res2.condition ∧
      res1.impacts = res2.impacts ∧ res1.impactData = res2.impactData ∧
      res1.hasComet = res2.hasComet ∧ res1.cometEvent = res2.cometEvent) ∧
    (∀ (d1 d2 : JSDate) (cfg : SeasonalWeatherConfig) (regionId : List Nat),
      d1.dayNumber = d2.dayNumber →
      getWeatherForDate d1 cfg regionId = getWeatherForDate d2 cfg regionId) := by
  constructor
  · intro date cfg r res1 res2 h1 h2
    rw [h1] at h2
    injection h2 with h
    subst h
    exact ⟨rfl, rfl, rfl, rfl, rfl, rfl, rfl, rfl⟩
  · intro d1 d2 cfg r h
    unfold getWeatherForDate
    rw [h]

/-- Witness for C1_determinism: two timestamps within the same UTC day
produce the same result. -/
theorem C1_determinism_witness :
    getWeatherForDate ⟨0⟩ demoCfgWinter [] = getWeatherForDate ⟨5000⟩ demoCfgWinter [] :=
  C1_determinism.2 ⟨0⟩ ⟨5000⟩ demoCfgWinter [] (by decide)

/-- Claim C4: on the comet date (UTC June 15, 2026), for every region and
every configuration providing the resolved season (spring), the override
returns Clear Skies, an empty impact list, hasComet true and the Gunhilde
comet payload, independent of region and of the rest of the pipeline. -/
theorem C4_comet_override (date : JSDate) (cfg : SeasonalWeatherConfig)
    (sd : SeasonData) (regionId : List Nat)
    (hdate : civilFromDays date.dayNumber = ⟨2026, 6, 15⟩)
    (hspring : cfg "spring" = some sd) :
    getWeatherForDate date cfg regionId =
      some ⟨"June 15", dayOfWeekName date.dayNumber, "spring", "Clear Skies", [],
            WEATHER_IMPACTS "Clear Skies", true,
            some ⟨"Gunhilde",
              "The comet Gunhilde traces a bright green line across the sky. Everyone who sees it feels uplifted.",
              "Recover 1 Morale"⟩⟩ := by
  unfold getWeatherForDate getWeatherByDay
  rw [hdate]
  simp only [hspring,
    show getSeason (CivilDate.month ⟨2026, 6, 15⟩) (CivilDate.day ⟨2026, 6, 15⟩) =
      "spring" from rfl,
    show isCometDate (CivilDate.year ⟨2026, 6, 15⟩) (CivilDate.month ⟨2026, 6, 15⟩)
      (CivilDate.day ⟨2026, 6, 15⟩) = true from rfl,
    if_true]
  rfl

/-- Witness for C4_comet_override at the concrete comet timestamp. -/
theorem C4_comet_override_witness :
    getWeatherForDate ⟨1781481600000⟩ demoCfgSpring defaultRegion =
      some ⟨"June 15", dayOfWeekName (JSDate.dayNumber ⟨1781481600000⟩), "spring",
            "Clear Skies", [], WEATHER_IMPACTS "Clear Skies", true,
            some ⟨"Gunhilde",
              "The comet Gunhilde traces a bright green line across the sky. Everyone who sees it feels uplifted.",
              "Recover 1 Morale"⟩⟩ :=
  C4_comet_override ⟨1781481600000⟩ demoCfgSpring demoSeason defaultRegion
    (by decide) (by decide)

/-- Claim C3: for a non-comet date, when the epoch selects a transition
path for (prevEffectiveWeather, currentEpochWeather) - seeded by
epochNumber * 54321 + regionOffset - the visible condition is
path[dayInEpoch] while dayInEpoch is below the path length and the rolled
base weather afterwards; with no selected path (including prev = current)
the condition is the rolled base weather on every day of the epoch. -/
theorem C3_transition_schedule (date : JSDate) (cfg : SeasonalWeatherConfig)
    (regionId : List Nat) (seasonData : SeasonData) (info : EpochInfo)
    (cur prev : String)
    (hseason : cfg (getSeason (civilFromDays date.dayNumber).month
      (civilFromDays date.dayNumber).day) = some seasonData)
    (hnc : isCometDate (civilFromDays date.dayNumber).year
      (civilFromDays date.dayNumber).month (civilFromDays date.dayNumber).day = false)
    (hinfo : getEpochInfo date.dayNumber regionId = some info)
    (hcur : getEpochBaseWeather info.epochNumber seasonData regionId = some cur)
    (hprev : getEffectiveEpochEndWeather ((info.epochNumber : Int) - 1) seasonData
      regionId = some prev) :
    ∃ res, getWeatherForDate date cfg regionId = some res ∧
      (∀ p, selectTransitionPath
          (mulberryFirst (info.epochNumber * 54321 + hashRegion regionId % 1000))
          prev cur = some p →
        (info.dayInEpoch < p.length → res.condition = p.getD info.dayInEpoch "") ∧
        (p.length ≤ info.dayInEpoch → res.condition = cur)) ∧
      (selectTransitionPath
          (mulberryFirst (info.epochNumber * 54321 + hashRegion regionId % 1000))
          prev cur = none → res.condition = cur) := by
  unfold getWeatherForDate getWeatherByDay
  simp only [hseason, hnc, hinfo, hcur, hprev, Bool.false_eq_true, if_false]
  refine ⟨_, rfl, ?_, ?_⟩
  · intro p hp
    constructor
    · intro hlt
      simp only [hp, if_pos hlt]
    · intro hge
      simp only [hp, if_neg (by omega : ¬ info.dayInEpoch < p.length)]
  · intro hp
    simp only [hp]

/-- On a one-entry list the roll lands on that entry in either branch. -/
lemma rollFromTable_single (u : Nat) (s : String) :
    rollFromTable u [CondEntry.str s] = some s := by
  unfold rollFromTable
  simp only [List.map, normEntry]
  rw [walkTable]
  split_ifs
  · rfl
  · rw [walkTable]
    rfl

/-- Witness for C3_transition_schedule: day 10 of the empty-id region
with a single-condition winter configuration takes the no-path branch. -/
theorem C3_transition_schedule_witness :
    ∃ res, getWeatherForDate ⟨864000000⟩ demoCfgWinter [] = some res ∧
      res.condition = "Clear Skies" := by
  obtain ⟨res, hres, hsome, hnone⟩ :=
    C3_transition_schedule ⟨864000000⟩ demoCfgWinter [] demoSeason
      ⟨4, 3, 0, 10, 12⟩ "Clear Skies" "Clear Skies"
      (by decide) (by decide) (by decide)
      (rollFromTable_single (mulberryFirst (4 * 31337 + hashRegion [])) "Clear Skies")
      (by decide)
  exact ⟨res, hres, hnone (by decide)⟩

/-- Claim C5: getEffectiveEpochEndWeather equals the spec-worded fold that
starts at the anchor epoch with Clear Skies and, epoch by epoch up to the
target, re-derives length, base weather and transition path from their
seeds and keeps the condition visible on the final day; and
getWeatherForDate uses this value at epochNumber - 1 as the previous
effective weather feeding the visible-condition rule. -/
theorem C5_effective_end_weather :
    (∀ (epochNumber : Int) (seasonConfig : SeasonData) (regionId : List Nat),
      getEffectiveEpochEndWeather epochNumber seasonConfig regionId =
        specEffectiveEndWeather epochNumber seasonConfig regionId) ∧
    (∀ (date : JSDate) (cfg : SeasonalWeatherConfig) (regionId : List Nat)
        (seasonData : SeasonData) (info : EpochInfo) (cur prev : String),
      cfg (getSeason (civilFromDays date.dayNumber).month
        (civilFromDays date.dayNumber).day) = some seasonData →
      isCometDate (civilFromDays date.dayNumber).year
        (civilFromDays date.dayNumber).month (civilFromDays date.dayNumber).day = false →
      getEpochInfo date.dayNumber regionId = some info →
      getEpochBaseWeather info.epochNumber seasonData regionId = some cur →
      specEffectiveEndWeather ((info.epochNumber : Int) - 1) seasonData regionId =
        some prev →
      ∃ res, getWeatherForDate date cfg regionId = some res ∧
        res.condition = specVisibleCondition prev cur
          (mulberryFirst (info.epochNumber * 54321 + hashRegion regionId % 1000))
          info.dayInEpoch) := by
  have ha : ∀ (epochNumber : Int) (seasonConfig : SeasonData) (regionId : List Nat),
      getEffectiveEpochEndWeather epochNumber seasonConfig regionId =
        specEffectiveEndWeather epochNumber seasonConfig regionId := by
    intro epochNumber seasonConfig regionId
    unfold getEffectiveEpochEndWeather specEffectiveEndWeather
    exact foldlM_range_eq_specWalk seasonConfig regionId _
  refine ⟨ha, ?_⟩
  intro date cfg regionId seasonData info cur prev hseason hnc hinfo hcur hprev
  rw [← ha] at hprev
  unfold getWeatherForDate getWeatherByDay
  simp only [hseason, hnc, hinfo, hcur, hprev, Bool.false_eq_true, if_false]
  exact ⟨_, rfl, rfl⟩

/-- Witness for C5_effective_end_weather: the same concrete day-10
scenario, phrased through the spec-worded walk. -/
theorem C5_effective_end_weather_witness :
    ∃ res, getWeatherForDate ⟨864000000⟩ demoCfgWinter [] = some res ∧
      res.condition = specVisibleCondition "Clear Skies" "Clear Skies"
        (mulberryFirst (4 * 54321 + hashRegion [] % 1000)) 0 :=
  C5_effective_end_weather.2 ⟨864000000⟩ demoCfgWinter [] demoSeason
    ⟨4, 3, 0, 10, 12⟩ "Clear Skies" "Clear Skies"
    (by decide) (by decide) (by decide)
    (rollFromTable_single (mulberryFirst (4 * 31337 + hashRegion [])) "Clear Skies")
    (by decide)
